import Mathlib

/-!
Verification of the intent-resolution and conversation-orchestration engine of
the `personal_assistant` backend (src/personal_assistant/core/conversation.py,
src/personal_assistant/crud/crud_conversation.py and the thin API wrapper in
src/personal_assistant/api/v1/endpoints/conversation.py).

The Python code is shallowly embedded: JSON values are an inductive type, the
Pydantic models become structures with explicit validators, exceptions become
`Except String`, and the two external library functions the core leans on
(`json.loads` of the standard library, and the LLM provider call behind
`BaseLLM.generate`) are abstracted as function parameters, exactly like the
spec treats them (external capabilities).  Everything that is repository code
is translated clause by clause.
-/

namespace PA

/-- JSON values, the result of `json.loads`.  Numbers are modelled as integers;
no claim depends on float semantics.  Objects are association lists (after
`json.loads` keys are unique). -/
inductive Json where
  | null
  | bool (b : Bool)
  | num (n : Int)
  | str (s : String)
  | arr (elems : List Json)
  | obj (fields : List (String × Json))

/-- Python `dict` lookup on a parsed JSON object. -/
def lookupField (fields : List (String × Json)) (k : String) : Option Json :=
  match fields with
  | [] => none
  | (k2, v) :: rest => if k2 = k then some v else lookupField rest k

-- --- The Pydantic models of conversation.py (lines 16-42) ---

/-- `RagQueryInput` (conversation.py lines 16-18): required `query : str`. -/
structure RagQueryInput where
  query : String
  deriving DecidableEq

/-- `SendEmailInput` (conversation.py lines 20-24): required `recipient`,
`subject`, `body`, all `str`. -/
structure SendEmailInput where
  recipient : String
  subject : String
  body : String
  deriving DecidableEq

/-- `ScheduleMeetingInput` (conversation.py lines 26-31): required
`participants : List[str]`, `date_time : str`, optional `platform`. -/
structure ScheduleMeetingInput where
  participants : List String
  date_time : String
  platform : Option String
  deriving DecidableEq

/-- `GeneralChatOutput` (conversation.py lines 33-35): required `response`. -/
structure GeneralChatOutput where
  response : String
  deriving DecidableEq

/-- `UnknownOutput` (conversation.py lines 37-39): required `reason`. -/
structure UnknownOutput where
  reason : String
  deriving DecidableEq

/-- `IntentOutput` (conversation.py line 42): the discriminated union of the
five Pydantic models. -/
inductive IntentOutput where
  | ragQuery (i : RagQueryInput)
  | sendEmail (i : SendEmailInput)
  | scheduleMeeting (i : ScheduleMeetingInput)
  | generalChat (i : GeneralChatOutput)
  | unknown (i : UnknownOutput)
  deriving DecidableEq

-- --- Pydantic validation, embedded field by field ---

/-- A required `str` field under Pydantic v2 validation: must be present and a
JSON string (no coercion from numbers or null). -/
def getRequiredStr (fields : List (String × Json)) (k : String) :
    Except String String :=
  match lookupField fields k with
  | some (Json.str s) => Except.ok s
  | some _ => Except.error (k ++ ": Input should be a valid string")
  | none => Except.error (k ++ ": Field required")

/-- Elementwise validation of a `List[str]` value. -/
def asStrings (xs : List Json) : Except String (List String) :=
  match xs with
  | [] => Except.ok []
  | Json.str s :: rest => (asStrings rest).map (fun l => s :: l)
  | _ :: _ => Except.error "Input should be a valid string"

/-- A required `List[str]` field. -/
def getRequiredStrList (fields : List (String × Json)) (k : String) :
    Except String (List String) :=
  match lookupField fields k with
  | some (Json.arr xs) =>
      match asStrings xs with
      | Except.ok l => Except.ok l
      | Except.error e => Except.error (k ++ ": " ++ e)
  | some _ => Except.error (k ++ ": Input should be a valid list")
  | none => Except.error (k ++ ": Field required")

/-- An `Optional[str] = None` field: absent or null is `none`. -/
def getOptionalStr (fields : List (String × Json)) (k : String) :
    Except String (Option String) :=
  match lookupField fields k with
  | none => Except.ok none
  | some Json.null => Except.ok none
  | some (Json.str s) => Except.ok (some s)
  | some _ => Except.error (k ++ ": Input should be a valid string")

/-- The `action: Literal[tag] = tag` field of every model: if present it must
be exactly the tag (if absent the default applies). -/
def checkActionLiteral (fields : List (String × Json)) (tag : String) :
    Except String Unit :=
  match lookupField fields "action" with
  | none => Except.ok ()
  | some (Json.str s) =>
      if s = tag then Except.ok ()
      else Except.error ("action: Input should be " ++ tag)
  | some _ => Except.error ("action: Input should be " ++ tag)

/-- `RagQueryInput.model_validate`. -/
def RagQueryInput.validate (fields : List (String × Json)) :
    Except String RagQueryInput := do
  let _ ← checkActionLiteral fields "query_rag"
  let q ← getRequiredStr fields "query"
  pure ⟨q⟩

/-- `SendEmailInput.model_validate`. -/
def SendEmailInput.validate (fields : List (String × Json)) :
    Except String SendEmailInput := do
  let _ ← checkActionLiteral fields "send_email"
  let r ← getRequiredStr fields "recipient"
  let s ← getRequiredStr fields "subject"
  let b ← getRequiredStr fields "body"
  pure ⟨r, s, b⟩

/-- `ScheduleMeetingInput.model_validate`. -/
def ScheduleMeetingInput.validate (fields : List (String × Json)) :
    Except String ScheduleMeetingInput := do
  let _ ← checkActionLiteral fields "schedule_meeting"
  let p ← getRequiredStrList fields "participants"
  let dt ← getRequiredStr fields "date_time"
  let pl ← getOptionalStr fields "platform"
  pure ⟨p, dt, pl⟩

/-- `GeneralChatOutput.model_validate`. -/
def GeneralChatOutput.validate (fields : List (String × Json)) :
    Except String GeneralChatOutput := do
  let _ ← checkActionLiteral fields "general_chat"
  let r ← getRequiredStr fields "response"
  pure ⟨r⟩

/-- `UnknownOutput.model_validate`. -/
def UnknownOutput.validate (fields : List (String × Json)) :
    Except String UnknownOutput := do
  let _ ← checkActionLiteral fields "unknown"
  let r ← getRequiredStr fields "reason"
  pure ⟨r⟩

/-- One entry of the `possible_types` catalogue of `_extract_intent_llm`
(conversation.py line 163): the class name (used in error messages), the
discriminator default of its `action` field, and its `model_validate`. -/
structure SchemaEntry where
  name : String
  tag : String
  validate : List (String × Json) → Except String IntentOutput

/-- `possible_types = [RagQueryInput, SendEmailInput, ScheduleMeetingInput,
GeneralChatOutput, UnknownOutput]` (conversation.py line 163). -/
def possible_types : List SchemaEntry :=
  [ ⟨"RagQueryInput", "query_rag",
      fun f => (RagQueryInput.validate f).map IntentOutput.ragQuery⟩,
    ⟨"SendEmailInput", "send_email",
      fun f => (SendEmailInput.validate f).map IntentOutput.sendEmail⟩,
    ⟨"ScheduleMeetingInput", "schedule_meeting",
      fun f => (ScheduleMeetingInput.validate f).map IntentOutput.scheduleMeeting⟩,
    ⟨"GeneralChatOutput", "general_chat",
      fun f => (GeneralChatOutput.validate f).map IntentOutput.generalChat⟩,
    ⟨"UnknownOutput", "unknown",
      fun f => (UnknownOutput.validate f).map IntentOutput.unknown⟩ ]

/-- Python `output_data.get("action") == tag` (conversation.py line 169): the
payload discriminator compared with an entry tag — true exactly when the
`action` field is present and is the JSON string `tag`. -/
def actionIs (fields : List (String × Json)) (tag : String) : Bool :=
  match lookupField fields "action" with
  | some (Json.str s) => s = tag
  | _ => false

/-- Python `repr` of a string inside the f-formatted `validation_errors` list
(quote-escaping of inner characters elided; no claim depends on it). -/
def pyRepr (s : String) : String := "\x27" ++ s ++ "\x27"

/-- Python f-string rendering of the `validation_errors` list. -/
def renderErrors (errs : List String) : String :=
  "[" ++ String.intercalate ", " (errs.map pyRepr) ++ "]"

/-- The reason string built at conversation.py line 183. -/
def mismatchReason (errs : List String) : String :=
  "LLM output structure mismatch or validation failed. Errors: " ++
    renderErrors errs

/-- The `for p_type in possible_types` loop (conversation.py lines 166-175)
on a JSON object: try each catalogue entry; when the payload discriminator
equals the entry tag, run its validation — `break` on success, append the
error and `continue` on failure; entries with a different tag are skipped.
Returns the parsed output (if any) and the accumulated `validation_errors`. -/
def tryTypes (fields : List (String × Json)) :
    List SchemaEntry → Option IntentOutput × List String
  | [] => (none, [])
  | t :: rest =>
      if actionIs fields t.tag then
        match t.validate fields with
        | Except.ok v => (some v, [])
        | Except.error e =>
            let r := tryTypes fields rest
            (r.1, ("Failed to validate as " ++ t.name ++ ": " ++ e) :: r.2)
      else tryTypes fields rest

/-- The same loop on a non-object JSON value: `output_data.get("action")`
raises `AttributeError` inside the per-entry `try`, so every entry appends an
error and the loop continues (conversation.py lines 166-175). -/
def tryTypesNonDict : List SchemaEntry → Option IntentOutput × List String
  | [] => (none, [])
  | t :: rest =>
      let r := tryTypesNonDict rest
      (r.1, ("Failed to validate as " ++ t.name ++ ": AttributeError") :: r.2)

/-- Conversation.py lines 162-183: run the catalogue loop on the parsed JSON
value; if some entry parsed, return it, otherwise fall back to
`UnknownOutput` with the structure-mismatch reason. -/
def parseIntentJson (j : Json) : IntentOutput :=
  let r : Option IntentOutput × List String :=
    match j with
    | Json.obj fields => tryTypes fields possible_types
    | _ => tryTypesNonDict possible_types
  match r.1 with
  | some v => v
  | none => IntentOutput.unknown ⟨mismatchReason r.2⟩

-- --- The Intent Resolver (`_extract_intent_llm`, conversation.py lines 102-192) ---

/-- One role/content pair of conversation history. -/
structure Turn where
  role : String
  content : String
  deriving DecidableEq

/-- The response object of `BaseLLM.generate` (llm.py lines 6-8); only its
`text` field is consumed by the core. -/
structure LLMResponse where
  text : String
  deriving DecidableEq

/-- The LLM gateway: `generate` may raise a provider error (modelled as
`Except.error`). -/
abbrev Gen := String → Except String LLMResponse

/-- The external `json.loads`: `none` models `json.JSONDecodeError`. -/
abbrev JsonParse := String → Option Json

/-- Conversation.py lines 105-107: the serialized history block, or the
placeholder when it renders empty. -/
def historyStr (history : List Turn) : String :=
  let s := String.intercalate "\n"
    (history.map fun t => t.role ++ ": " ++ t.content)
  if s = "" then "No previous conversation history." else s

/-- The classification prompt f-string (conversation.py lines 109-141). -/
def intentPrompt (message : String) (history : List Turn) : String :=
  "\nConsider the following conversation history:\n<history>\n" ++
  historyStr history ++
  "\n</history>\n\nNow, analyze the latest user message: \"" ++ message ++
  "\"\n\nDetermine the primary intent and extract relevant entities based on the available actions, considering the context from the history.\n\nAvailable actions and their required entities:\n1.  **query_rag**: User is asking a question about their documents or knowledge base (e.g., \"what did the report say about X?\", \"summarize the meeting notes\").\n    - **query**: The specific question being asked.\n2.  **send_email**: User wants to send an email (e.g., \"email John about the project update\").\n    - **recipient**: Email address or name of the recipient.\n    - **subject**: Subject line of the email.\n    - **body**: Main content of the email.\n3.  **schedule_meeting**: User wants to schedule a meeting (e.g., \"schedule a meeting with Jane tomorrow at 2 PM on Slack\").\n    - **participants**: List of people to invite.\n    - **date_time**: Proposed date and time.\n    - **platform**: (Optional) Platform like Zoom, Slack.\n4.  **general_chat**: The user message is conversational, a greeting, small talk, or doesn\x27t match other actions (e.g., \"hello\", \"how are you?\", \"thanks\"). Provide a suitable general response, considering the history.\n5.  **unknown**: If the intent is unclear, ambiguous, or cannot be fulfilled. Provide a brief reason.\n\nDetermine the single most appropriate action for the *latest user message* and extract all necessary entities for that action.\nRespond ONLY with a JSON object matching the structure for the chosen action (either query_rag, send_email, schedule_meeting, general_chat, or unknown).\nEnsure the JSON is valid and complete according to the specified fields for the action.\nFor send_email, try to infer recipient, subject and body from the message and history. If crucial information is missing, ask for clarification using the \x27unknown\x27 action.\nFor query_rag, extract the core question from the latest message.\nFor general_chat, formulate a brief, appropriate response based on the latest message and history.\n\nJSON Response:\n"

/-- Python `str.strip()`: drop leading and trailing whitespace.  Implemented
on the character list so that it computes inside the kernel. -/
def pyStrip (s : String) : String :=
  ⟨((s.data.dropWhile Char.isWhitespace).reverse.dropWhile
      Char.isWhitespace).reverse⟩

/-- Python `str.startswith`. -/
def pyStartsWith (s pre : String) : Bool := pre.data.isPrefixOf s.data

/-- Python `str.endswith`. -/
def pyEndsWith (s suf : String) : Bool := suf.data.isSuffixOf s.data

/-- Python `s[n:]` (character-indexed). -/
def pyDrop (s : String) (n : Nat) : String := ⟨s.data.drop n⟩

/-- Python `s[:-n]` (character-indexed). -/
def pyDropRight (s : String) (n : Nat) : String :=
  ⟨(s.data.reverse.drop n).reverse⟩

/-- Conversation.py lines 148-156: strip the response, remove an optional
leading ```json fence (and, if then present, a trailing ``` fence), and strip
again.  `split("```json", 1)[1]` after a positive `startswith` check drops the
7-character opener; `rsplit("```", 1)[0]` after a positive `endswith` check
drops the 3-character closer. -/
def stripFence (raw : String) : String :=
  let t := pyStrip raw
  let t :=
    if pyStartsWith t "```json" then
      let t1 := pyDrop t 7
      if pyEndsWith t1 "```" then pyDropRight t1 3 else t1
    else t
  pyStrip t

/-- `_extract_intent_llm` (conversation.py lines 102-192).  The `generate`
call at line 147 sits OUTSIDE the `try` block beginning at line 158, so a
provider failure propagates (`Except.error`); every failure after a response
text is in hand is absorbed into an `UnknownOutput`. -/
def extract_intent_llm (generate : Gen) (parseJson : JsonParse)
    (message : String) (history : List Turn) : Except String IntentOutput :=
  match generate (intentPrompt message history) with
  | Except.error e => Except.error e
  | Except.ok resp =>
      let response_text := stripFence resp.text
      Except.ok
        (match parseJson response_text with
         | none => IntentOutput.unknown
             ⟨"Could not parse LLM response as JSON: " ++ response_text⟩
         | some j => parseIntentJson j)

-- --- Outcomes, handlers and the orchestrator (`process_message`) ---

/-- The result dictionary built by `process_message` and the handlers.  Every
outcome in conversation.py is a flat dict whose keys are among `response`,
`error`, `details` and `history_error`; absent keys are `none`. -/
structure Outcome where
  response : Option String := none
  error : Option String := none
  details : Option String := none
  history_error : Option String := none
  deriving DecidableEq

/-- One row of the `conversations` table (models/database.py lines 17-25);
`created_at` is represented by the position in the chronological row list. -/
structure Entry where
  user_id : String
  message : String
  response : String
  deriving DecidableEq

/-- A search hit of `vector_store.similarity_search`: `page_content` and the
`source` entry of its metadata (conversation.py line 214). -/
structure Doc where
  page_content : String
  source : Option String
  deriving DecidableEq

/-- `json.dumps(response_data)` for an outcome dict that has no `response`
key (crud_conversation.py line 14).  Key order follows the handlers, which
insert `error` before `details`; inner-character escaping is elided (no claim
inspects this string). -/
def dumpsOutcome (o : Outcome) : String :=
  "\x7b" ++ String.intercalate ", "
    ((match o.error with
      | some e => ["\x22error\x22: \x22" ++ e ++ "\x22"]
      | none => []) ++
     (match o.details with
      | some s => ["\x22details\x22: \x22" ++ s ++ "\x22"]
      | none => []) ++
     (match o.history_error with
      | some s => ["\x22history_error\x22: \x22" ++ s ++ "\x22"]
      | none => [])) ++ "\x7d"

/-- crud_conversation.py lines 13-16: the stored `response` column is the
outcome's `response` text when present, else the serialized dict. -/
def storedResponse (o : Outcome) : String :=
  match o.response with
  | some s => s
  | none => dumpsOutcome o

/-- The external collaborators `process_message` consumes, exactly the ports
of spec section 6: the generation gateway, `json.loads`, the history read
(which may raise a storage error), the vector search, the history append
(which may raise), and whether `settings.OPENAI_API_KEY` is set. -/
structure Deps where
  generate : Gen
  parseJson : JsonParse
  fetchHistory : Except String (List Turn)
  search : String → Nat → Except String (List Doc)
  persist : Entry → Except String Unit
  openaiKeyConfigured : Bool

/-- The literal no-results sentence of conversation.py line 212. -/
def no_results_sentence : String :=
  "No relevant information found in the knowledge base."

/-- Conversation.py line 214: the context block assembled from search hits. -/
def docContext (docs : List Doc) : String :=
  String.intercalate "\n\n" (docs.map fun doc =>
    "Source: " ++ doc.source.getD "Unknown" ++ "\nContent: " ++
      doc.page_content)

/-- The head of the synthesis prompt up to and including the context opener
(conversation.py lines 220-227). -/
def synthesisPromptPre (history_str : String) : String :=
  "\nConversation History:\n<history>\n" ++ history_str ++
  "\n</history>\n\nRelevant Context from Knowledge Base:\n<context>\n"

/-- The tail of the synthesis prompt from the context closer on
(conversation.py lines 229-236). -/
def synthesisPromptPost (query : String) : String :=
  "\n</context>\n\nBased *only* on the conversation history and the provided context from the knowledge base, answer the *latest user question*: \"" ++
  query ++
  "\"\n\nIf the context does not contain the necessary information, explicitly state that the answer cannot be found in the knowledge base based on the provided context.\nDo not make up information or use external knowledge beyond the provided history and context.\n\nAnswer:"

/-- The synthesis prompt f-string (conversation.py lines 220-236). -/
def synthesisPrompt (history_str context query : String) : String :=
  synthesisPromptPre history_str ++ context ++ synthesisPromptPost query

/-- `_handle_rag_query` (conversation.py lines 194-245).  Besides the outcome
it returns the list of prompts sent to the generation gateway, so that the
theorems can speak about which model calls the handler makes.  The whole body
sits in a `try` whose handler returns the error outcome of lines 243-245. -/
def handle_rag_query (d : Deps) (query : String) (history : List Turn) :
    Outcome × List String :=
  if !d.openaiKeyConfigured then
    ({ error := some "OPENAI_API_KEY not configured" }, [])
  else
    match d.search query 3 with
    | Except.error e =>
        ({ error := some "Failed to answer question using knowledge base.",
           details := some e }, [])
    | Except.ok search_results =>
        let context :=
          if search_results.isEmpty then no_results_sentence
          else docContext search_results
        let prompt := synthesisPrompt (historyStr history) context query
        match d.generate prompt with
        | Except.error e =>
            ({ error := some "Failed to answer question using knowledge base.",
               details := some e }, [prompt])
        | Except.ok resp => ({ response := some resp.text }, [prompt])

/-- `_handle_send_email` (conversation.py lines 247-264): the transport is a
stub, so the handler acknowledges with a descriptive response. -/
def handle_send_email (p : SendEmailInput) : Outcome :=
  { response := some ("OK. I will send an email to " ++ p.recipient ++
      " with subject \x27" ++ p.subject ++ "\x27. (Actual sending pending)") }

/-- `_handle_schedule_meeting` (conversation.py lines 266-271). -/
def handle_schedule_meeting (p : ScheduleMeetingInput) : Outcome :=
  { response := some ("OK. I\x27ll schedule a meeting with " ++
      String.intercalate ", " p.participants ++ " for " ++ p.date_time ++
      ". (Implementation Pending)") }

/-- The action dispatch of `process_message` (conversation.py lines 73-89),
with the list of prompts the dispatched handler sent to the generation
gateway.  The `else` branch of line 87 is unreachable here because
`IntentOutput` is a closed union. -/
def dispatch (d : Deps) (out : IntentOutput) (history : List Turn) :
    Outcome × List String :=
  match out with
  | IntentOutput.ragQuery i => handle_rag_query d i.query history
  | IntentOutput.sendEmail i => (handle_send_email i, [])
  | IntentOutput.scheduleMeeting i => (handle_schedule_meeting i, [])
  | IntentOutput.generalChat i => ({ response := some i.response }, [])
  | IntentOutput.unknown i =>
      ({ response := some ("Sorry, I couldn\x27t understand that. Reason: " ++
          i.reason) }, [])

/-- The value `process_message` hands back: the outcome dict returned to the
caller and the conversation entries appended to storage during the call. -/
structure ProcResult where
  outcome : Outcome
  persisted : List Entry
  deriving DecidableEq

/-- `ConversationHandler.process_message` (conversation.py lines 55-100).
The history fetch at line 59 is not inside any `try`, so a storage failure
propagates; the resolver call is wrapped (lines 62-71) but the persist inside
that error branch (line 70) is not; the final persist (lines 92-98) is
wrapped and only annotates the already-computed result. -/
def process_message (d : Deps) (message : String) (user_id : String) :
    Except String ProcResult :=
  match d.fetchHistory with
  | Except.error e => Except.error e
  | Except.ok history =>
    match extract_intent_llm d.generate d.parseJson message history with
    | Except.error e =>
        let result : Outcome :=
          { error := some "Could not process request with LLM.",
            details := some e }
        let entry : Entry := ⟨user_id, message, storedResponse result⟩
        (match d.persist entry with
         | Except.error pe => Except.error pe
         | Except.ok _ => Except.ok ⟨result, [entry]⟩)
    | Except.ok output =>
        let result := (dispatch d output history).1
        let entry : Entry := ⟨user_id, message, storedResponse result⟩
        (match d.persist entry with
         | Except.ok _ => Except.ok ⟨result, [entry]⟩
         | Except.error pe =>
             let annotated := { result with
               history_error := some ("Failed to save interaction: " ++ pe) }
             Except.ok ⟨annotated, []⟩)

-- --- The API wrapper (api/v1/endpoints/conversation.py lines 36-64) ---

/-- What the `/process` endpoint hands back: an HTTP error or the handler
result. -/
inductive EndpointResult where
  | httpError (status : Nat) (detail : String)
  | ok (result : ProcResult)
  deriving DecidableEq

/-- The `/process` endpoint body (endpoints/conversation.py lines 43-64),
assuming the handler is configured: `if not request.text` rejects exactly the
empty string with 400 (a whitespace-only string is truthy in Python), an
empty user id gives 401, and any exception out of the handler becomes 500. -/
def endpoint_process_message (d : Deps) (text : String) (user_id : String) :
    EndpointResult :=
  if text = "" then EndpointResult.httpError 400 "Input text cannot be empty."
  else if user_id = "" then
    EndpointResult.httpError 401 "Could not identify user."
  else
    match process_message d text user_id with
    | Except.ok r => EndpointResult.ok r
    | Except.error e =>
        EndpointResult.httpError 500
          ("Internal server error processing message: " ++ e)

-- --- The History Store crud (crud_conversation.py) ---

/-- `json.dumps` of a parsed JSON value (used by the history read to
re-serialize structured responses, crud_conversation.py line 59); inner
character escaping elided, no claim inspects the rendering. -/
def jdumps : Json → String
  | Json.null => "null"
  | Json.bool true => "true"
  | Json.bool false => "false"
  | Json.num n => toString n
  | Json.str s => "\x22" ++ s ++ "\x22"
  | Json.arr xs =>
      "[" ++ String.intercalate ", " (xs.attach.map fun x => jdumps x.1) ++ "]"
  | Json.obj fs =>
      "\x7b" ++ String.intercalate ", " (fs.attach.map fun kv =>
        "\x22" ++ kv.1.1 ++ "\x22: " ++ jdumps kv.1.2) ++ "\x7d"
decreasing_by
  · simp only [Json.arr.sizeOf_spec]
    have := List.sizeOf_lt_of_mem x.2
    omega
  · simp only [Json.obj.sizeOf_spec]
    obtain ⟨⟨a, b⟩, hm⟩ := kv
    have := List.sizeOf_lt_of_mem hm
    simp only [Prod.mk.sizeOf_spec] at this
    show sizeOf b < 1 + sizeOf fs
    omega

/-- Python `str()` of a parsed JSON value (crud_conversation.py line 57).
For containers Python would print the `repr`; rendering details are elided
via `jdumps`, no claim inspects them. -/
def pyStr (j : Json) : String :=
  match j with
  | Json.str s => s
  | Json.bool true => "True"
  | Json.bool false => "False"
  | Json.null => "None"
  | Json.num n => toString n
  | j => jdumps j

/-- crud_conversation.py lines 50-63: recover a displayable assistant line
from the stored `response` column — parse it when it looks like JSON, unwrap
a `response` key, else re-serialize or fall back to the raw string. -/
def renderStoredResponse (parseJson : JsonParse) (resp : String) : String :=
  if pyStartsWith (pyStrip resp) "\x7b" || pyStartsWith (pyStrip resp) "[" then
    match parseJson resp with
    | some (Json.obj fs) =>
        (match lookupField fs "response" with
         | some v => pyStr v
         | none => jdumps (Json.obj fs))
    | some j => jdumps j
    | none => resp
  else resp

/-- crud_conversation.py lines 44-65: the Turns contributed by one stored
row — a user turn when the message is non-empty (Python truthiness), then an
assistant turn when the response is non-empty. -/
def entryTurns (parseJson : JsonParse) (e : Entry) : List Turn :=
  (if e.message ≠ "" then [⟨"user", e.message⟩] else []) ++
  (if e.response ≠ "" then
    [⟨"assistant", renderStoredResponse parseJson e.response⟩] else [])

/-- `get_conversation_history` (crud_conversation.py lines 28-70).  `rows`
are the stored rows of the user in `created_at` ascending order; the query reads
them newest-first limited to `limit * 2` rows, the loop walks them reversed
(oldest first) emitting up to two turns per row, and the final
`[-limit*2:]` slice keeps the last `limit * 2` turns (for `limit * 2 = 0`
the Python slice `[-0:]` is the whole list). -/
def get_conversation_history (parseJson : JsonParse) (rows : List Entry)
    (limit : Nat) : List Turn :=
  let history_orm := (rows.reverse).take (limit * 2)
  let formatted := (history_orm.reverse).flatMap (entryTurns parseJson)
  if limit * 2 = 0 then formatted
  else formatted.drop (formatted.length - limit * 2)

/-- A concrete dependency bundle used to evaluate the theorems on explicit
inputs: every collaborator succeeds, and the model replies with plain text
(`"hello"`) that is not JSON. -/
def demoDeps : Deps :=
  { generate := fun _ => Except.ok ⟨"hello"⟩
    parseJson := fun _ => none
    fetchHistory := Except.ok []
    search := fun _ _ => Except.ok []
    persist := fun _ => Except.ok ()
    openaiKeyConfigured := true }

-- ===================== Theorems =====================

/-- C1, counterexample: the resolver does NOT absorb model errors.  The
`generate` call sits outside the `try` block of `_extract_intent_llm`, so a
provider failure propagates out of the resolver instead of degrading to the
Unknown variant. -/
theorem c1_model_error_propagates :
    extract_intent_llm (fun _ => Except.error "connection error")
      (fun _ => none) "hi" [] = Except.error "connection error" := rfl

/-- C1 (amended): once a model response text is in hand — for every gateway
call that returns — the resolver is total: it returns exactly one Action
variant and never raises; malformed output and schema mismatches degrade to
the Unknown variant. -/
theorem c1_resolver_total_after_generation (g : Gen) (p : JsonParse)
    (message : String) (history : List Turn) (resp : LLMResponse)
    (hg : g (intentPrompt message history) = Except.ok resp) :
    ∃ v : IntentOutput,
      extract_intent_llm g p message history = Except.ok v := by
  simp only [extract_intent_llm, hg]
  exact ⟨_, rfl⟩

/-- Witness for C1 (amended) at a concrete gateway and message. -/
theorem c1_resolver_total_after_generation_witness :
    ∃ v : IntentOutput,
      extract_intent_llm demoDeps.generate demoDeps.parseJson "hi" [] =
        Except.ok v :=
  c1_resolver_total_after_generation demoDeps.generate demoDeps.parseJson
    "hi" [] ⟨"hello"⟩ rfl

/-- C2, counterexample: the FetchHistory boundary is NOT wrapped — a storage
failure in the history fetch propagates raw out of `process_message` instead
of converting to an error-shaped Outcome. -/
theorem c2_fetch_history_failure_propagates :
    process_message
      { demoDeps with fetchHistory := Except.error "db connection lost" }
      "hello" "u1" = Except.error "db connection lost" := rfl

/-- C2 (amended): when the history fetch succeeds and Resolve does not raise,
`process_message` always returns a well-formed Outcome: failures at Dispatch
are absorbed by the handlers and a Persist failure only annotates the
already-computed result. -/
theorem c2_outcome_total_when_fetch_and_resolve_succeed (d : Deps)
    (message user_id : String) (history : List Turn) (out : IntentOutput)
    (hfetch : d.fetchHistory = Except.ok history)
    (hres : extract_intent_llm d.generate d.parseJson message history =
      Except.ok out) :
    ∃ r : ProcResult, process_message d message user_id = Except.ok r := by
  simp only [process_message, hfetch, hres]
  cases d.persist ⟨user_id, message, storedResponse (dispatch d out history).1⟩
  · exact ⟨_, rfl⟩
  · exact ⟨_, rfl⟩

/-- Witness for C2 (amended): a failing Persist still yields an Outcome. -/
theorem c2_outcome_total_witness :
    ∃ r : ProcResult,
      process_message { demoDeps with persist := fun _ => Except.error "disk full" }
        "hello" "u1" = Except.ok r :=
  c2_outcome_total_when_fetch_and_resolve_succeed _ "hello" "u1" []
    (IntentOutput.unknown ⟨"Could not parse LLM response as JSON: hello"⟩)
    rfl rfl

/-- C3, counterexample: a blank (whitespace-only, non-empty) message is NOT
rejected: `if not request.text` only catches the empty string, so `" "`
passes validation, reaches the pipeline and a ConversationEntry is persisted
for it. -/
theorem c3_blank_message_processed_and_persisted :
    endpoint_process_message demoDeps " " "u1" =
      EndpointResult.ok
        ⟨{ response := some "Sorry, I couldn\x27t understand that. Reason: Could not parse LLM response as JSON: hello" },
         [⟨"u1", " ",
           "Sorry, I couldn\x27t understand that. Reason: Could not parse LLM response as JSON: hello"⟩]⟩ := rfl

/-- C3 (amended): an EMPTY message is rejected at the API boundary with a
400 client error before any side effect — for every dependency bundle
(including a failing history store), so no history fetch, no model call and
no persisted entry can be observed. -/
theorem c3_empty_message_rejected (d : Deps) (user_id : String) :
    endpoint_process_message d "" user_id =
      EndpointResult.httpError 400 "Input text cannot be empty." := rfl

/-- C6, counterexample: for a fenced non-JSON response the Unknown reason
carries the fence-stripped text, not the raw response text — the raw text
(fences included) does not occur in the reason. -/
theorem c6_reason_lacks_raw_text :
    extract_intent_llm (fun _ => Except.ok ⟨"```json\nnot json\n```"⟩)
        (fun _ => none) "q" [] =
      Except.ok (IntentOutput.unknown
        ⟨"Could not parse LLM response as JSON: not json"⟩)
    ∧ ¬ ("```json\nnot json\n```".data <:+:
          "Could not parse LLM response as JSON: not json".data) :=
  ⟨rfl, by decide⟩

/-- C6 (amended): whenever the (fence-stripped) response text fails to parse
as JSON, the resolver returns the Unknown variant whose reason mentions the
parse failure and carries the fence-stripped response text. -/
theorem c6_parse_failure_reason (g : Gen) (p : JsonParse) (message : String)
    (history : List Turn) (resp : LLMResponse)
    (hg : g (intentPrompt message history) = Except.ok resp)
    (hp : p (stripFence resp.text) = none) :
    extract_intent_llm g p message history =
      Except.ok (IntentOutput.unknown
        ⟨"Could not parse LLM response as JSON: " ++ stripFence resp.text⟩) := by
  simp only [extract_intent_llm, hg, hp]

/-- Witness for C6 (amended) at a concrete non-JSON response. -/
theorem c6_parse_failure_reason_witness :
    extract_intent_llm (fun _ => Except.ok ⟨"oops"⟩) (fun _ => none) "q" [] =
      Except.ok (IntentOutput.unknown
        ⟨"Could not parse LLM response as JSON: " ++
          stripFence (LLMResponse.mk "oops").text⟩) :=
  c6_parse_failure_reason _ _ "q" [] ⟨"oops"⟩ rfl rfl

/-- C7: dispatching `Chat{reply}` (`general_chat`) is an identity
passthrough: the outcome is exactly `{response: reply}` and the handler makes
no model call (its prompt list is empty). -/
theorem c7_chat_passthrough (d : Deps) (reply : String) (history : List Turn) :
    dispatch d (IntentOutput.generalChat ⟨reply⟩) history =
      ({ response := some reply, error := none, details := none,
         history_error := none }, []) := rfl

/-- C8: a QueryKnowledge dispatch whose search returns `[]` still invokes the
generation gateway exactly once, on a synthesis prompt containing the literal
no-results sentence, and returns `{response: generatedText}` on success. -/
theorem c8_rag_empty_results (d : Deps) (query : String) (history : List Turn)
    (hkey : d.openaiKeyConfigured = true)
    (hsearch : d.search query 3 = Except.ok []) :
    (handle_rag_query d query history).2 =
        [synthesisPrompt (historyStr history) no_results_sentence query]
    ∧ (∃ a b, synthesisPrompt (historyStr history) no_results_sentence query =
        a ++ no_results_sentence ++ b)
    ∧ (∀ resp : LLMResponse,
        d.generate (synthesisPrompt (historyStr history) no_results_sentence
          query) = Except.ok resp →
        (handle_rag_query d query history).1 = { response := some resp.text }) := by
  refine ⟨?_, ⟨synthesisPromptPre (historyStr history),
    synthesisPromptPost query, rfl⟩, ?_⟩
  · simp only [handle_rag_query, hkey, hsearch, Bool.not_true, Bool.false_eq_true,
      if_false, List.isEmpty_nil, if_true]
    cases d.generate (synthesisPrompt (historyStr history) no_results_sentence query)
    · rfl
    · rfl
  · intro resp hgen
    simp only [handle_rag_query, hkey, hsearch, Bool.not_true, Bool.false_eq_true,
      if_false, List.isEmpty_nil, if_true, hgen]

/-- Witness for C8 at a concrete dependency bundle and query. -/
theorem c8_rag_empty_results_witness :
    (handle_rag_query demoDeps "X" []).2 =
        [synthesisPrompt (historyStr []) no_results_sentence "X"]
    ∧ (∃ a b, synthesisPrompt (historyStr []) no_results_sentence "X" =
        a ++ no_results_sentence ++ b)
    ∧ (∀ resp : LLMResponse,
        demoDeps.generate (synthesisPrompt (historyStr []) no_results_sentence
          "X") = Except.ok resp →
        (handle_rag_query demoDeps "X" []).1 = { response := some resp.text }) :=
  c8_rag_empty_results demoDeps "X" [] rfl rfl

/-- C9: if persisting the entry fails after a successful Dispatch, the
returned Outcome keeps every already-computed field unchanged and only gains
the `history_error` diagnostic annotation; the persistence failure never
masks or replaces the computed result. -/
theorem c9_persist_failure_preserves_outcome (d : Deps)
    (message user_id : String) (history : List Turn) (out : IntentOutput)
    (pe : String)
    (hfetch : d.fetchHistory = Except.ok history)
    (hres : extract_intent_llm d.generate d.parseJson message history =
      Except.ok out)
    (hpersist : d.persist
      ⟨user_id, message, storedResponse (dispatch d out history).1⟩ =
      Except.error pe) :
    ∃ r : ProcResult, process_message d message user_id = Except.ok r
      ∧ r.outcome.response = (dispatch d out history).1.response
      ∧ r.outcome.error = (dispatch d out history).1.error
      ∧ r.outcome.details = (dispatch d out history).1.details
      ∧ r.outcome.history_error =
          some ("Failed to save interaction: " ++ pe) := by
  simp only [process_message, hfetch, hres, hpersist]
  exact ⟨_, rfl, rfl, rfl, rfl, rfl⟩

/-- Witness for C9 with a concretely failing persistence layer. -/
theorem c9_persist_failure_preserves_outcome_witness :
    ∃ r : ProcResult,
      process_message { demoDeps with persist := fun _ => Except.error "disk full" }
        "hello" "u1" = Except.ok r
      ∧ r.outcome.response =
          (dispatch { demoDeps with persist := fun _ => Except.error "disk full" }
            (IntentOutput.unknown
              ⟨"Could not parse LLM response as JSON: hello"⟩) []).1.response
      ∧ r.outcome.error =
          (dispatch { demoDeps with persist := fun _ => Except.error "disk full" }
            (IntentOutput.unknown
              ⟨"Could not parse LLM response as JSON: hello"⟩) []).1.error
      ∧ r.outcome.details =
          (dispatch { demoDeps with persist := fun _ => Except.error "disk full" }
            (IntentOutput.unknown
              ⟨"Could not parse LLM response as JSON: hello"⟩) []).1.details
      ∧ r.outcome.history_error =
          some ("Failed to save interaction: " ++ "disk full") :=
  c9_persist_failure_preserves_outcome _ "hello" "u1" []
    (IntentOutput.unknown ⟨"Could not parse LLM response as JSON: hello"⟩)
    "disk full" rfl rfl rfl

-- --- Helper lemmas shared by the schema-validation claims ---

/-- Inversion for `Except.map`: a mapped success comes from a success. -/
theorem exceptMap_ok {α β ε : Type} {f : α → β} {x : Except ε α} {b : β}
    (h : x.map f = Except.ok b) : ∃ a, x = Except.ok a ∧ f a = b := by
  cases x with
  | error e => simp [Except.map] at h
  | ok a =>
      refine ⟨a, rfl, ?_⟩
      simpa [Except.map] using h

/-- A validated required string field was present with that string value. -/
theorem getRequiredStr_ok {fields : List (String × Json)} {k s : String}
    (h : getRequiredStr fields k = Except.ok s) :
    lookupField fields k = some (Json.str s) := by
  rcases hl : lookupField fields k with _ | v
  · simp [getRequiredStr, hl] at h
  · cases v <;> simp [getRequiredStr, hl] at h
    subst h
    rfl

/-- A validated required string-list field was present with a list value. -/
theorem getRequiredStrList_ok {fields : List (String × Json)} {k : String}
    {l : List String} (h : getRequiredStrList fields k = Except.ok l) :
    ∃ xs, lookupField fields k = some (Json.arr xs) := by
  rcases hl : lookupField fields k with _ | v
  · simp [getRequiredStrList, hl] at h
  · cases v <;> simp [getRequiredStrList, hl] at h
    exact ⟨_, rfl⟩

/-- Inversion of `SendEmailInput.model_validate`: success implies all three
required fields were present with the parsed values. -/
theorem sendEmailValidate_ok {fields : List (String × Json)}
    {i : SendEmailInput} (h : SendEmailInput.validate fields = Except.ok i) :
    lookupField fields "recipient" = some (Json.str i.recipient)
    ∧ lookupField fields "subject" = some (Json.str i.subject)
    ∧ lookupField fields "body" = some (Json.str i.body) := by
  simp only [SendEmailInput.validate, bind, Except.bind, pure, Except.pure] at h
  rcases h0 : checkActionLiteral fields "send_email" with e | u <;> rw [h0] at h
  · cases h
  rcases h1 : getRequiredStr fields "recipient" with e | r <;> rw [h1] at h
  · cases h
  rcases h2 : getRequiredStr fields "subject" with e | s <;> rw [h2] at h
  · cases h
  rcases h3 : getRequiredStr fields "body" with e | b <;> rw [h3] at h
  · cases h
  injection h with h4
  subst h4
  exact ⟨getRequiredStr_ok h1, getRequiredStr_ok h2, getRequiredStr_ok h3⟩

/-- Inversion of `RagQueryInput.model_validate`. -/
theorem ragQueryValidate_ok {fields : List (String × Json)}
    {i : RagQueryInput} (h : RagQueryInput.validate fields = Except.ok i) :
    lookupField fields "query" = some (Json.str i.query) := by
  simp only [RagQueryInput.validate, bind, Except.bind, pure, Except.pure] at h
  rcases h0 : checkActionLiteral fields "query_rag" with e | u <;> rw [h0] at h
  · cases h
  rcases h1 : getRequiredStr fields "query" with e | q <;> rw [h1] at h
  · cases h
  injection h with h2
  subst h2
  exact getRequiredStr_ok h1

/-- Inversion of `GeneralChatOutput.model_validate`. -/
theorem generalChatValidate_ok {fields : List (String × Json)}
    {i : GeneralChatOutput}
    (h : GeneralChatOutput.validate fields = Except.ok i) :
    lookupField fields "response" = some (Json.str i.response) := by
  simp only [GeneralChatOutput.validate, bind, Except.bind, pure, Except.pure] at h
  rcases h0 : checkActionLiteral fields "general_chat" with e | u <;> rw [h0] at h
  · cases h
  rcases h1 : getRequiredStr fields "response" with e | q <;> rw [h1] at h
  · cases h
  injection h with h2
  subst h2
  exact getRequiredStr_ok h1

/-- Inversion of `ScheduleMeetingInput.model_validate` for the required
fields. -/
theorem scheduleMeetingValidate_ok {fields : List (String × Json)}
    {i : ScheduleMeetingInput}
    (h : ScheduleMeetingInput.validate fields = Except.ok i) :
    (∃ xs, lookupField fields "participants" = some (Json.arr xs))
    ∧ lookupField fields "date_time" = some (Json.str i.date_time) := by
  simp only [ScheduleMeetingInput.validate, bind, Except.bind, pure,
    Except.pure] at h
  rcases h0 : checkActionLiteral fields "schedule_meeting" with e | u <;>
    rw [h0] at h
  · cases h
  rcases h1 : getRequiredStrList fields "participants" with e | ps <;>
    rw [h1] at h
  · cases h
  rcases h2 : getRequiredStr fields "date_time" with e | dt <;> rw [h2] at h
  · cases h
  rcases h3 : getOptionalStr fields "platform" with e | pl <;> rw [h3] at h
  · cases h
  injection h with h4
  subst h4
  exact ⟨getRequiredStrList_ok h1, getRequiredStr_ok h2⟩

/-- If the catalogue loop produced a value, some catalogue entry had a
matching discriminator and validated the payload to that value. -/
theorem tryTypes_fst_some {fields : List (String × Json)} {v : IntentOutput} :
    ∀ {l : List SchemaEntry}, (tryTypes fields l).1 = some v →
      ∃ t, t ∈ l ∧ actionIs fields t.tag = true ∧
        t.validate fields = Except.ok v := by
  intro l
  induction l with
  | nil => intro h; simp [tryTypes] at h
  | cons t rest ih =>
      intro h
      by_cases hg : actionIs fields t.tag
      · rw [tryTypes, if_pos hg] at h
        rcases hv : t.validate fields with e | w <;> rw [hv] at h
        · have h2 : (tryTypes fields rest).1 = some v := h
          rcases ih h2 with ⟨t2, ht2, hg2, hv2⟩
          exact ⟨t2, List.mem_cons_of_mem _ ht2, hg2, hv2⟩
        · injection h with h3
          subst h3
          exact ⟨t, List.mem_cons_self _ _, hg, hv⟩
      · rw [tryTypes, if_neg hg] at h
        rcases ih h with ⟨t2, ht2, hg2, hv2⟩
        exact ⟨t2, List.mem_cons_of_mem _ ht2, hg2, hv2⟩

/-- A non-Unknown parse of a JSON object came from the tag-matched catalogue
entry validating the payload. -/
theorem parseIntentJson_obj_cases {fields : List (String × Json)}
    {v : IntentOutput} (h : parseIntentJson (Json.obj fields) = v)
    (hv : ∀ r, v ≠ IntentOutput.unknown r) :
    ∃ t, t ∈ possible_types ∧ actionIs fields t.tag = true ∧
      t.validate fields = Except.ok v := by
  rcases hr : (tryTypes fields possible_types).1 with _ | w
  · exfalso
    rw [parseIntentJson, hr] at h
    exact hv _ h.symm
  · have hw : w = v := by
      rw [parseIntentJson, hr] at h
      exact h
    subst hw
    exact tryTypes_fst_some hr

/-- A true discriminator test means the `action` field is that tag. -/
theorem actionIs_eq_true {fields : List (String × Json)} {tag : String}
    (h : actionIs fields tag = true) :
    lookupField fields "action" = some (Json.str tag) := by
  unfold actionIs at h
  rcases hl : lookupField fields "action" with _ | v <;> rw [hl] at h
  · cases h
  · cases v <;> simp at h
    subst h
    rfl

/-- When no catalogue entry matches the discriminator, the loop collects
nothing. -/
theorem tryTypes_no_match {fields : List (String × Json)} :
    ∀ {l : List SchemaEntry}, (∀ t ∈ l, actionIs fields t.tag = false) →
      tryTypes fields l = (none, []) := by
  intro l
  induction l with
  | nil => intro _; rfl
  | cons t rest ih =>
      intro hall
      rw [tryTypes, if_neg (by simp [hall t (List.mem_cons_self _ _)])]
      exact ih fun t2 ht2 => hall t2 (List.mem_cons_of_mem _ ht2)

/-- C4, counterexample: a payload whose required fields are present but EMPTY
is accepted as a SendEmail action, not rejected in favor of Unknown —
Pydantic validates presence and type, not non-emptiness. -/
theorem c4_empty_required_fields_accepted :
    parseIntentJson (Json.obj [("action", Json.str "send_email"),
      ("recipient", Json.str ""), ("subject", Json.str ""),
      ("body", Json.str "")]) =
      IntentOutput.sendEmail ⟨"", "", ""⟩ := rfl

/-- C4 (amended): for every JSON object the resolver accepts as a
non-Unknown Action variant, every field required by that variant is PRESENT
with a value of the right shape (emptiness is not checked; a missing
required field is rejected in favor of Unknown, by contraposition). -/
theorem c4_required_fields_present (fields : List (String × Json)) :
    (∀ i, parseIntentJson (Json.obj fields) = IntentOutput.ragQuery i →
        lookupField fields "query" = some (Json.str i.query))
    ∧ (∀ i, parseIntentJson (Json.obj fields) = IntentOutput.sendEmail i →
        lookupField fields "recipient" = some (Json.str i.recipient)
        ∧ lookupField fields "subject" = some (Json.str i.subject)
        ∧ lookupField fields "body" = some (Json.str i.body))
    ∧ (∀ i, parseIntentJson (Json.obj fields) = IntentOutput.scheduleMeeting i →
        (∃ xs, lookupField fields "participants" = some (Json.arr xs))
        ∧ lookupField fields "date_time" = some (Json.str i.date_time))
    ∧ (∀ i, parseIntentJson (Json.obj fields) = IntentOutput.generalChat i →
        lookupField fields "response" = some (Json.str i.response)) := by
  refine ⟨?_, ?_, ?_, ?_⟩
  · intro i h
    rcases parseIntentJson_obj_cases h (fun r hr => IntentOutput.noConfusion hr)
      with ⟨t, ht, hg, hval⟩
    simp only [possible_types, List.mem_cons, List.not_mem_nil, or_false] at ht
    rcases ht with rfl | rfl | rfl | rfl | rfl <;>
      simp only at hval <;>
      rcases exceptMap_ok hval with ⟨a, hx, hctor⟩ <;>
      first
        | (injection hctor with h2; subst h2; exact ragQueryValidate_ok hx)
        | cases hctor
  · intro i h
    rcases parseIntentJson_obj_cases h (fun r hr => IntentOutput.noConfusion hr)
      with ⟨t, ht, hg, hval⟩
    simp only [possible_types, List.mem_cons, List.not_mem_nil, or_false] at ht
    rcases ht with rfl | rfl | rfl | rfl | rfl <;>
      simp only at hval <;>
      rcases exceptMap_ok hval with ⟨a, hx, hctor⟩ <;>
      first
        | (injection hctor with h2; subst h2; exact sendEmailValidate_ok hx)
        | cases hctor
  · intro i h
    rcases parseIntentJson_obj_cases h (fun r hr => IntentOutput.noConfusion hr)
      with ⟨t, ht, hg, hval⟩
    simp only [possible_types, List.mem_cons, List.not_mem_nil, or_false] at ht
    rcases ht with rfl | rfl | rfl | rfl | rfl <;>
      simp only at hval <;>
      rcases exceptMap_ok hval with ⟨a, hx, hctor⟩ <;>
      first
        | (injection hctor with h2; subst h2;
            exact scheduleMeetingValidate_ok hx)
        | cases hctor
  · intro i h
    rcases parseIntentJson_obj_cases h (fun r hr => IntentOutput.noConfusion hr)
      with ⟨t, ht, hg, hval⟩
    simp only [possible_types, List.mem_cons, List.not_mem_nil, or_false] at ht
    rcases ht with rfl | rfl | rfl | rfl | rfl <;>
      simp only at hval <;>
      rcases exceptMap_ok hval with ⟨a, hx, hctor⟩ <;>
      first
        | (injection hctor with h2; subst h2;
            exact generalChatValidate_ok hx)
        | cases hctor

/-- Witness for C4 (amended) on a concrete accepted SendEmail payload. -/
theorem c4_required_fields_present_witness :
    lookupField [("action", Json.str "send_email"),
        ("recipient", Json.str "a@b.com"), ("subject", Json.str "hi"),
        ("body", Json.str "text")] "recipient" = some (Json.str "a@b.com")
    ∧ lookupField [("action", Json.str "send_email"),
        ("recipient", Json.str "a@b.com"), ("subject", Json.str "hi"),
        ("body", Json.str "text")] "subject" = some (Json.str "hi")
    ∧ lookupField [("action", Json.str "send_email"),
        ("recipient", Json.str "a@b.com"), ("subject", Json.str "hi"),
        ("body", Json.str "text")] "body" = some (Json.str "text") :=
  (c4_required_fields_present _).2.1 ⟨"a@b.com", "hi", "text"⟩ rfl

/-- C5: on a successfully parsed JSON object, validation is attempted
against exactly the one catalogue entry whose discriminator matches (the
tag-matched entries of the catalogue are exactly `[t]`); a tag match with a
validation failure yields Unknown with a reason carrying the validation
error of that entry; a tag match with a validation success yields that variant;
and no tag match at all yields Unknown with the (empty) error summary. -/
theorem c5_tag_dispatch (fields : List (String × Json)) :
    (∀ t ∈ possible_types, actionIs fields t.tag = true →
      (possible_types.filter fun t2 => actionIs fields t2.tag) = [t]
      ∧ (∀ e, t.validate fields = Except.error e →
          parseIntentJson (Json.obj fields) = IntentOutput.unknown
            ⟨mismatchReason ["Failed to validate as " ++ t.name ++ ": " ++ e]⟩)
      ∧ (∀ v, t.validate fields = Except.ok v →
          parseIntentJson (Json.obj fields) = v))
    ∧ ((∀ t ∈ possible_types, actionIs fields t.tag = false) →
        parseIntentJson (Json.obj fields) =
          IntentOutput.unknown ⟨mismatchReason []⟩) := by
  constructor
  · intro t ht hg
    have hl := actionIs_eq_true hg
    simp only [possible_types, List.mem_cons, List.not_mem_nil, or_false] at ht
    rcases ht with rfl | rfl | rfl | rfl | rfl <;>
      refine ⟨?_, fun e hv => ?_, fun v hv => ?_⟩ <;>
      simp_all [parseIntentJson, tryTypes, actionIs, List.filter, possible_types]
  · intro hall
    have h0 : tryTypes fields possible_types = (none, []) :=
      tryTypes_no_match hall
    rw [parseIntentJson, h0]

/-- Witness for C5: a payload with the `send_email` tag but no fields is
validated against the SendEmail schema only, and the failure reason carries
its validation error. -/
theorem c5_tag_dispatch_witness :
    parseIntentJson (Json.obj [("action", Json.str "send_email")]) =
      IntentOutput.unknown ⟨mismatchReason
        ["Failed to validate as SendEmailInput: recipient: Field required"]⟩ :=
  ((c5_tag_dispatch [("action", Json.str "send_email")]).1
    ⟨"SendEmailInput", "send_email",
      fun f => (SendEmailInput.validate f).map IntentOutput.sendEmail⟩
    (List.mem_cons_of_mem _ (List.mem_cons_self _ _)) rfl).2.1
    "recipient: Field required" rfl

-- --- Helper lemmas for the history-window claim ---

/-- `flatMap` only depends on the values the function takes on the list. -/
theorem flatMap_congr_mem {α β : Type} {f g : α → List β} :
    ∀ {l : List α}, (∀ e ∈ l, f e = g e) → l.flatMap f = l.flatMap g := by
  intro l
  induction l with
  | nil => intro _; rfl
  | cons a rest ih =>
      intro hall
      rw [List.flatMap_cons, List.flatMap_cons, hall a (List.mem_cons_self _ _),
        ih fun e he => hall e (List.mem_cons_of_mem _ he)]

/-- A `flatMap` of two-element blocks has twice the length. -/
theorem flatMap_pair_length {α β : Type} {f : α → List β}
    (hf : ∀ e, (f e).length = 2) :
    ∀ (l : List α), (l.flatMap f).length = 2 * l.length := by
  intro l
  induction l with
  | nil => rfl
  | cons a rest ih =>
      rw [List.flatMap_cons, List.length_append, hf a, ih, List.length_cons]
      omega

/-- Dropping `2 * j` elements from a `flatMap` of two-element blocks drops
`j` whole blocks. -/
theorem flatMap_pair_drop {α β : Type} {f : α → List β}
    (hf : ∀ e, (f e).length = 2) :
    ∀ (j : Nat) (l : List α),
      (l.flatMap f).drop (2 * j) = (l.drop j).flatMap f := by
  intro j
  induction j with
  | zero => intro l; rfl
  | succ n ih =>
      intro l
      cases l with
      | nil => rfl
      | cons a rest =>
          rw [List.flatMap_cons,
            show 2 * (n + 1) = (f a).length + 2 * n by rw [hf a]; omega,
            List.drop_append, List.drop_succ_cons, ih rest]

/-- A row with non-empty message and response contributes exactly a user
turn followed by an assistant turn. -/
theorem entryTurns_full {p : JsonParse} {e : Entry}
    (hm : e.message ≠ "") (hr : e.response ≠ "") :
    entryTurns p e =
      [⟨"user", e.message⟩,
       ⟨"assistant", renderStoredResponse p e.response⟩] := by
  simp [entryTurns, hm, hr]

/-- C10, counterexample: a stored entry with an empty response contributes a
single user turn, not two turns — "two per ConversationEntry" fails. -/
theorem c10_entry_without_response_single_turn :
    get_conversation_history (fun _ => none) [⟨"u", "hi", ""⟩] 5 =
      [⟨"user", "hi"⟩] := rfl

/-- C10 (amended): the history window is bounded — the fetch with limit 5
returns at most 10 Turns — and when every stored entry has a non-empty
message and response the result is exactly the last 5 entries rendered
oldest-first as a user turn followed by an assistant turn each. -/
theorem c10_history_window_bounded (p : JsonParse) (rows : List Entry) :
    (get_conversation_history p rows 5).length ≤ 10
    ∧ ((∀ e ∈ rows, e.message ≠ "" ∧ e.response ≠ "") →
        get_conversation_history p rows 5 =
          (rows.rtake 5).flatMap fun e =>
            [⟨"user", e.message⟩,
             ⟨"assistant", renderStoredResponse p e.response⟩]) := by
  have hL : ((rows.reverse.take (5 * 2)).reverse) = rows.rtake 10 := by
    rw [List.rtake_eq_reverse_take_reverse]
  constructor
  · rw [get_conversation_history]
    simp only [if_neg (by omega : ¬ 5 * 2 = 0)]
    rw [List.length_drop]
    omega
  · intro hfull
    rw [get_conversation_history]
    simp only [if_neg (by omega : ¬ 5 * 2 = 0)]
    have hmem : ∀ e ∈ (rows.reverse.take (5 * 2)).reverse, e ∈ rows := by
      intro e he
      rw [hL] at he
      exact List.drop_subset _ _ he
    have hcongr :
        ((rows.reverse.take (5 * 2)).reverse).flatMap (entryTurns p) =
        ((rows.reverse.take (5 * 2)).reverse).flatMap fun e =>
          [(⟨"user", e.message⟩ : Turn),
           ⟨"assistant", renderStoredResponse p e.response⟩] := by
      refine flatMap_congr_mem fun e he => ?_
      rcases hfull e (hmem e he) with ⟨h1, h2⟩
      exact entryTurns_full h1 h2
    rw [hcongr]
    have hlen := flatMap_pair_length (f := fun e : Entry =>
      [(⟨"user", e.message⟩ : Turn),
       ⟨"assistant", renderStoredResponse p e.response⟩]) (fun _ => rfl)
      ((rows.reverse.take (5 * 2)).reverse)
    rw [hlen]
    rw [show 2 * ((rows.reverse.take (5 * 2)).reverse).length - 5 * 2 =
      2 * (((rows.reverse.take (5 * 2)).reverse).length - 5) by omega]
    rw [flatMap_pair_drop (f := fun e : Entry =>
      [(⟨"user", e.message⟩ : Turn),
       ⟨"assistant", renderStoredResponse p e.response⟩]) (fun _ => rfl)]
    congr 1
    rw [hL]
    show (rows.rtake 10).drop ((rows.rtake 10).length - 5) = rows.rtake 5
    rw [List.rtake, List.rtake, List.drop_drop, List.length_drop]
    congr 1
    omega

/-- Witness for C10 (amended) on a concrete one-entry store. -/
theorem c10_history_window_bounded_witness :
    get_conversation_history (fun _ => none) [⟨"u", "m1", "r1"⟩] 5 =
      (([⟨"u", "m1", "r1"⟩] : List Entry).rtake 5).flatMap fun e =>
        [⟨"user", e.message⟩,
         ⟨"assistant", renderStoredResponse (fun _ => none) e.response⟩] :=
  (c10_history_window_bounded (fun _ => none) [⟨"u", "m1", "r1"⟩]).2
    (by decide)

end PA
